import Mathlib

/-!
Verification of the CollabCanvas backend agent pipeline.

Shallow embedding of the Python backend:
  - packages/backend/agents/canvas_agent.py  (command executor, agent lifecycle)
  - packages/backend/agents/tools.py         (canvas tools)
  - packages/backend/services/session_manager.py (session memory store)

Dynamic Python values are modelled by `PyVal`; Python dicts are association
lists (insertion-ordered, first-match lookup, as CPython dicts behave for the
string keys used here).  Code that can raise is modelled in `Except String`;
the string is the stringified exception.  Python floats are modelled by `ℚ`.
-/

namespace CollabCanvas

/-- Model of a dynamic Python value (string, float, int, bool, None, list, dict). -/
inductive PyVal where
  | str (s : String)
  | num (q : ℚ)
  | int (n : Int)
  | bool (b : Bool)
  | none
  | list (xs : List PyVal)
  | dict (fields : List (String × PyVal))

/-- Python `isinstance(v, dict) and "type" in v` — the shape test used by the
normalizer in canvas_agent.py. -/
def isShapeDict : PyVal → Bool
  | .dict fs => (fs.lookup "type").isSome
  | _ => false

/-- Python `len(v)`; raises `TypeError` on objects without a length. -/
def pyLen : PyVal → Except String Nat
  | .list xs => .ok xs.length
  | .str s => .ok s.length
  | .dict fs => .ok fs.length
  | _ => .error "TypeError: object of this type has no len"

/-- Python `v[i]` for a non-negative integer index; raises on non-sequences. -/
def pyIndex : PyVal → Nat → Except String PyVal
  | .list xs, i =>
    match xs.get? i with
    | some v => .ok v
    | Option.none => .error "IndexError: list index out of range"
  | .str s, i =>
    match s.toList.get? i with
    | some c => .ok (.str c.toString)
    | Option.none => .error "IndexError: string index out of range"
  | .dict _, _ => .error "KeyError"
  | _, _ => .error "TypeError: object is not subscriptable"

/-- Python iteration `for x in v`; lists yield elements, strings yield
characters, dicts yield keys; other values raise `TypeError`. -/
def pyToList : PyVal → Except String (List PyVal)
  | .list xs => .ok xs
  | .str s => .ok (s.toList.map (fun c => .str c.toString))
  | .dict fs => .ok (fs.map (fun p => .str p.1))
  | _ => .error "TypeError: object is not iterable"

/-- Dict lookup on a `PyVal` (returns `none` on non-dicts). -/
def pyGet? (v : PyVal) (k : String) : Option PyVal :=
  match v with
  | .dict fs => fs.lookup k
  | _ => Option.none

/-- Handling of `result["output"]` in `extract_shapes_from_result`
(canvas_agent.py lines 386-398): a dict is kept only when it carries `type`;
a list is filtered down to dict items carrying `type`. -/
def extractFromOutput (output : PyVal) : List PyVal :=
  match output with
  | .dict fs => if (fs.lookup "type").isSome then [.dict fs] else []
  | .list xs => xs.filter isShapeDict
  | _ => []

/-- Handling of one intermediate-step tool output in
`extract_shapes_from_result` (canvas_agent.py lines 406-424): a dict with a
`shapes` list is flattened; otherwise a dict with `type` or with `command` is
kept whole; a list is filtered to dict items carrying `type`. -/
def extractFromToolOutput (out : PyVal) : List PyVal :=
  match out with
  | .dict fs =>
    match fs.lookup "shapes" with
    | some (.list xs) => xs.filter isShapeDict
    | _ =>
      if (fs.lookup "type").isSome then [.dict fs]
      else if (fs.lookup "command").isSome then [.dict fs]
      else []
  | .list xs => xs.filter isShapeDict
  | _ => []

/-- One iteration of the intermediate-steps loop (canvas_agent.py lines
402-424): `if len(step) >= 2: tool_output = step[1]; ...`. -/
def processStep (step : PyVal) : Except String (List PyVal) := do
  let n ← pyLen step
  if n ≥ 2 then
    let out ← pyIndex step 1
    pure (extractFromToolOutput out)
  else
    pure []

/-- The intermediate-steps loop, accumulating shapes in step order. -/
def extractSteps : List PyVal → Except String (List PyVal)
  | [] => .ok []
  | step :: rest => do
    let s ← processStep step
    let r ← extractSteps rest
    pure (s ++ r)

/-- `extract_shapes_from_result` (canvas_agent.py lines 370-426).  The input
is the agent-invocation result dict; the output is the flat list of shape
records, or the stringified exception when the dynamic field accesses raise. -/
def extract_shapes_from_result (result : List (String × PyVal)) :
    Except String (List PyVal) := do
  let fromOutput :=
    match result.lookup "output" with
    | some output => extractFromOutput output
    | Option.none => []
  let fromSteps ←
    match result.lookup "intermediate_steps" with
    | some steps => do
        let items ← pyToList steps
        extractSteps items
    | Option.none => pure []
  pure (fromOutput ++ fromSteps)

/-- Update `fs[k] = v` on a Python dict: overwrite in place when the key is
present (insertion order kept), append otherwise. -/
def dictSet (fs : List (String × PyVal)) (k : String) (v : PyVal) :
    List (String × PyVal) :=
  if (fs.lookup k).isSome then
    fs.map (fun p => if p.1 = k then (k, v) else p)
  else
    fs ++ [(k, v)]

/-- Metadata tagging applied to each extracted shape (canvas_agent.py lines
334-346): backfill a generated id, set `isAIGenerated`, and stamp canvas,
user and session ids when those arguments are truthy. -/
def addMetadata (canvasId : String) (userId : Option String) (sessionId : String)
    (freshId : String) (shape : PyVal) : PyVal :=
  match shape with
  | .dict fs =>
    let fs := if (fs.lookup "id").isSome then fs else dictSet fs "id" (.str freshId)
    let fs := dictSet fs "isAIGenerated" (.bool true)
    let fs := if canvasId ≠ "" then dictSet fs "canvasId" (.str canvasId) else fs
    let fs :=
      match userId with
      | some u => if u ≠ "" then dictSet fs "createdBy" (.str u) else fs
      | Option.none => fs
    let fs := if sessionId ≠ "" then dictSet fs "sessionId" (.str sessionId) else fs
    .dict fs
  | v => v

/-- `result.get("output", f"Successfully executed command: {command}")`
(canvas_agent.py line 349). -/
def aiMessage (result : List (String × PyVal)) (command : String) : PyVal :=
  match result.lookup "output" with
  | some v => v
  | Option.none => .str ("Successfully executed command: " ++ command)

/-- Result envelope of `execute_canvas_command`. -/
structure CmdResult where
  success : Bool
  message : PyVal
  shapes : List PyVal
  error : Option String

/-- Outcome of `future.result(timeout=20)` on the reasoning-engine invocation:
a result dict, a `FuturesTimeoutError`, or any other exception. -/
inductive InvokeOutcome where
  | ok (result : List (String × PyVal))
  | timeout
  | exc (msg : String)

/-- Environment of one `execute_canvas_command` call: pre-call global state
(file-change flag, agent presence) and the outcome of each effectful step.
The reasoning engine and stores are external, so their behaviour is a
parameter; `uuid` supplies the ids generated for shapes missing one. -/
structure ExecEnv where
  command : String
  canvas_id : String
  user_id : Option String
  session_id : String
  filesChanged : Bool
  agentPresent : Bool
  initOutcome : Except String Unit
  memoryOutcome : Except String Unit
  invokeOutcome : InvokeOutcome
  uuid : Nat → String

/-- The structured result built in the `except FuturesTimeoutError` handler
(canvas_agent.py lines 321-328). -/
def timeoutResult : CmdResult :=
  { success := false
    message := .str "Command took too long to execute (timeout after 20 seconds). This usually happens when the AI tries to process too many operations individually. Please try a simpler command or contact support."
    shapes := []
    error := some "Timeout after 20 seconds" }

/-- Body of the outer `try` of `execute_canvas_command` (canvas_agent.py lines
289-355): agent recreation on file change or absence, session-memory fetch,
reasoning-engine invocation under the 20s timeout (the timeout handler returns
`timeoutResult` normally), shape extraction, metadata tagging.  An `error`
value is an exception escaping the `try` body. -/
def runSteps (env : ExecEnv) : Except String CmdResult := do
  if env.filesChanged || !env.agentPresent then
    env.initOutcome
  let _ ← env.memoryOutcome
  match env.invokeOutcome with
  | .timeout => pure timeoutResult
  | .exc e => Except.error e
  | .ok result => do
    let shapes ← extract_shapes_from_result result
    let shapes := shapes.enum.map
      (fun p => addMetadata env.canvas_id env.user_id env.session_id (env.uuid p.1) p.2)
    pure { success := true
           message := aiMessage result env.command
           shapes := shapes
           error := Option.none }

/-- `execute_canvas_command` (canvas_agent.py lines 269-367): the outer
`except Exception` turns any escaping exception into the uniform failure
envelope; the function itself is total — it never raises. -/
def execute_canvas_command (env : ExecEnv) : CmdResult :=
  match runSteps env with
  | .ok r => r
  | .error e =>
    { success := false
      message := .str "Failed to execute command"
      shapes := []
      error := some e }

/-- The initialization step (if it runs at all) did not raise. -/
def initStepOk (env : ExecEnv) : Prop :=
  (env.filesChanged || !env.agentPresent) = true → env.initOutcome = Except.ok ()

/-- Some step of command execution raises exception `e` (and is the first to
do so): agent initialization, session-memory lookup, reasoning-engine
invocation, or normalization of the result. -/
def stepRaises (env : ExecEnv) (e : String) : Prop :=
  ((env.filesChanged || !env.agentPresent) = true ∧ env.initOutcome = Except.error e)
  ∨ (initStepOk env ∧ env.memoryOutcome = Except.error e)
  ∨ (initStepOk env ∧ env.memoryOutcome = Except.ok ()
      ∧ env.invokeOutcome = .exc e)
  ∨ (initStepOk env ∧ env.memoryOutcome = Except.ok ()
      ∧ ∃ r, env.invokeOutcome = .ok r ∧ extract_shapes_from_result r = Except.error e)

/-- Environment of one `check_agent_health` call: the file-change probe
result, whether the global agent is present and exposes the expected
attributes, and the outcome of `initialize_agent` (which re-raises any
creation failure, e.g. a missing `OPENAI_API_KEY`). -/
structure HealthEnv where
  filesChanged : Bool
  agentPresent : Bool
  agentValid : Bool
  initOutcome : Except String Unit

/-- `check_agent_health` (canvas_agent.py lines 206-252).  The calls to
`initialize_agent` on the file-change and agent-missing paths sit outside the
`try`, so their exceptions propagate (`Except.error`); inside the `try`, a
raising `initialize_agent` is caught by `except Exception`, whose handler
calls `initialize_agent` once more, unprotected. -/
def check_agent_health (env : HealthEnv) : Except String Bool :=
  if env.filesChanged then
    match env.initOutcome with
    | .ok _ => .ok true
    | .error e => .error e
  else if !env.agentPresent then
    match env.initOutcome with
    | .ok _ => .ok false
    | .error e => .error e
  else if !env.agentValid then
    match env.initOutcome with
    | .ok _ => .ok false
    | .error _ =>
      match env.initOutcome with
      | .ok _ => .ok false
      | .error e => .error e
  else .ok true

/-- A `check_agent_health` call triggers a recreation exactly when the
tracked files changed, the agent is missing, or it lacks the expected
attributes (canvas_agent.py lines 221, 226, 235). -/
def recreationTriggered (env : HealthEnv) : Prop :=
  env.filesChanged = true ∨ env.agentPresent = false ∨ env.agentValid = false

/-- Global state tracked by the agent lifecycle code in canvas_agent.py:
the stored source mtimes, the creation counter and the agent reference. -/
structure AgentState where
  toolsMtime : Option ℚ
  promptsMtime : Option ℚ
  creationCount : Nat
  agentPresent : Bool

/-- `check_files_changed` (canvas_agent.py lines 119-164), given the current
mtimes of tools.py and prompts.py: on the first call it only records them; on
a mismatch it updates the stored mtimes and reports a change. -/
def check_files_changed (st : AgentState) (curT curP : ℚ) : Bool × AgentState :=
  match st.toolsMtime with
  | Option.none =>
    (false, { st with toolsMtime := some curT, promptsMtime := some curP })
  | some t =>
    if curT ≠ t ∨ st.promptsMtime ≠ some curP then
      (true, { st with toolsMtime := some curT, promptsMtime := some curP })
    else
      (false, st)

/-- `initialize_agent` (canvas_agent.py lines 167-203): increments the
creation counter, creates the agent (success given by `createOk`; on failure
the exception is re-raised, leaving the counter incremented), then refreshes
the stored mtimes via `check_files_changed`.  The boolean reports success. -/
def initialize_agent (st : AgentState) (curT curP : ℚ) (createOk : Bool) :
    AgentState × Bool :=
  let st1 := { st with creationCount := st.creationCount + 1 }
  if createOk then
    let st2 := { st1 with agentPresent := true }
    ((check_files_changed st2 curT curP).2, true)
  else
    (st1, false)

/-- The agent-maintenance preamble of `execute_canvas_command`
(canvas_agent.py lines 294-303), run before the reasoning engine is invoked:
recreate on file change, then initialize if the agent is missing.  The
boolean reports whether execution proceeds to the invocation. -/
def execute_preamble (st : AgentState) (curT curP : ℚ) (createOk : Bool) :
    AgentState × Bool :=
  let c := check_files_changed st curT curP
  if c.1 then
    let r := initialize_agent c.2 curT curP createOk
    if r.2 then
      if !r.1.agentPresent then initialize_agent r.1 curT curP createOk
      else (r.1, true)
    else (r.1, false)
  else
    if !c.2.agentPresent then initialize_agent c.2 curT curP createOk
    else (c.2, true)

/-- The session map of session_manager.py: session id to last-access time,
in insertion order. -/
abbrev Sessions := List (String × ℚ)

/-- `SESSION_TIMEOUT` (session_manager.py line 18): 30 minutes. -/
def SESSION_TIMEOUT : ℚ := 30 * 60

/-- `SessionManager._cleanup_expired_sessions` (session_manager.py lines
77-86): drop every session whose last access is strictly older than the
timeout. -/
def cleanup_expired_sessions (ss : Sessions) (now : ℚ) : Sessions :=
  ss.filter (fun p => !(decide (now - p.2 > SESSION_TIMEOUT)))

/-- Session-map effect of `SessionManager.get_memory` (session_manager.py
lines 25-58): sweep expired sessions first, then refresh the session's
last-access time, or insert a fresh session. -/
def get_memory (ss : Sessions) (sid : String) (now : ℚ) : Sessions :=
  let ss := cleanup_expired_sessions ss now
  if (ss.lookup sid).isSome then
    ss.map (fun p => if p.1 = sid then (p.1, now) else p)
  else
    ss ++ [(sid, now)]

/-- `SessionManager.get_active_sessions_count` (session_manager.py lines
88-92). -/
def get_active_sessions_count (ss : Sessions) : Nat := ss.length

/-- `COLOR_MAP` (tools.py lines 27-42). -/
def COLOR_MAP : List (String × String) :=
  [("red", "#FF0000"), ("blue", "#0000FF"), ("green", "#00FF00"),
   ("yellow", "#FFFF00"), ("purple", "#800080"), ("pink", "#FFC0CB"),
   ("orange", "#FFA500"), ("black", "#000000"), ("white", "#FFFFFF"),
   ("gray", "#808080"), ("grey", "#808080"), ("brown", "#A52A2A"),
   ("cyan", "#00FFFF"), ("magenta", "#FF00FF")]

/-- Python `s.lower()`: per-character lowercasing (extensionally
`String.toLower`, written structurally so it evaluates). -/
def pyLower (s : String) : String := String.mk (s.data.map Char.toLower)

/-- `normalize_color` (tools.py lines 50-53): lower-case and strip the name,
map known names to hex, pass anything else through unchanged. -/
def normalize_color (color : String) : String :=
  let color_lower := (pyLower color).trim
  match COLOR_MAP.lookup color_lower with
  | some hex => hex
  | Option.none => color

/-- A single-quote character, used inside tool messages. -/
def sq : String := String.singleton (Char.ofNat 39)

/-- The shape record built by `create_shape` (tools.py lines 108-126):
an unrecognized lower-cased `shape_type` silently becomes "rectangle";
a circle's height mirrors its width; the rotation argument is stored
unchanged. -/
def create_shape_record (shape_type : String) (x y width height : ℚ)
    (color : String) (rotation : ℚ) (genId : String) : List (String × PyVal) :=
  let stl0 := pyLower shape_type
  let stl := if stl0 = "rectangle" ∨ stl0 = "circle" then stl0 else "rectangle"
  [("id", .str genId), ("type", .str stl), ("x", .num x), ("y", .num y),
   ("width", .num width),
   ("height", .num (if stl = "rectangle" then height else width)),
   ("fill", .str (normalize_color color)), ("rotation", .num rotation),
   ("stroke", .str "#000000"), ("strokeWidth", .num 0)]

/-- `create_shape` (tools.py lines 81-150): builds the record, issues the
store write (its outcome given by `store`), and returns the result dict.
The second component is the store-call payload. -/
def create_shape (shape_type : String) (x y width height : ℚ) (color : String)
    (rotation : ℚ) (genId : String) (store : Except String Bool) :
    PyVal × Option (List (String × PyVal)) :=
  let stl0 := pyLower shape_type
  let stl := if stl0 = "rectangle" ∨ stl0 = "circle" then stl0 else "rectangle"
  let shape := create_shape_record shape_type x y width height color rotation genId
  match store with
  | .ok true =>
    (.dict [("success", .bool true),
            ("message", .str ("Created " ++ stl ++ " at position (" ++
              toString x ++ ", " ++ toString y ++ ")")),
            ("shape_id", .str genId)], some shape)
  | .ok false =>
    (.dict [("success", .bool false),
            ("message", .str ("Failed to create " ++ stl))], some shape)
  | .error e =>
    (.dict [("success", .bool false),
            ("message", .str ("Error creating shape: " ++ e))], some shape)

/-- Python `a % m` on floats for a positive modulus (tools.py line 351):
`a - m * floor(a / m)`. -/
def pymod (a m : ℚ) : ℚ := a - m * ⌊a / m⌋

/-- `rotate_shape` (tools.py lines 333-378): normalizes the angle modulo 360
and writes `{"rotation": normalized}` to the store.  The second component is
the store-update payload (shape id and partial fields). -/
def rotate_shape (shape_id : String) (angle : ℚ) (store : Except String Bool) :
    PyVal × Option (String × List (String × PyVal)) :=
  let normalized := pymod angle 360
  let upd := [("rotation", PyVal.num normalized)]
  match store with
  | .ok true =>
    (.dict [("success", .bool true),
            ("message", .str ("Rotated shape " ++ shape_id ++ " to " ++
              toString normalized ++ "°")),
            ("shape_id", .str shape_id), ("angle", .num normalized)],
     some (shape_id, upd))
  | .ok false =>
    (.dict [("success", .bool false),
            ("message", .str ("Failed to rotate shape " ++ shape_id ++
              ". It may not exist on the canvas.")),
            ("shape_id", .str shape_id)], some (shape_id, upd))
  | .error e =>
    (.dict [("success", .bool false),
            ("message", .str ("Error rotating shape: " ++ e)),
            ("shape_id", .str shape_id)], some (shape_id, upd))

/-- The id-backfill step of the batch-create validation loop (tools.py lines
1182-1183): `if 'id' not in shape: shape['id'] = generate_shape_id()`. -/
def withId (genId : String) (fs : List (String × PyVal)) : List (String × PyVal) :=
  if (fs.lookup "id").isSome then fs else dictSet fs "id" (.str genId)

/-- Outcome of validating one shape of a batch. -/
inductive StepOutcome where
  | ok (fs : List (String × PyVal))
  | missingType
  | raised (msg : String)

/-- One iteration of the `create_shapes_batch` validation loop (tools.py
lines 1181-1190): backfill the id, reject on a missing `type`, normalize a
string `fill` in place (a non-string `fill` raises `AttributeError`). -/
def validateOne (genId : String) (fs : List (String × PyVal)) : StepOutcome :=
  if ((withId genId fs).lookup "type").isNone then .missingType
  else
    match (withId genId fs).lookup "fill" with
    | some (.str s) => .ok (dictSet (withId genId fs) "fill" (.str (normalize_color s)))
    | some _ => .raised "AttributeError: object has no attribute lower"
    | Option.none => .ok (withId genId fs)

/-- Outcome of the whole validation loop. -/
inductive ValidateOutcome where
  | ok (shapes : List (List (String × PyVal)))
  | missingType (i : Nat)
  | raised (msg : String)

/-- The `create_shapes_batch` validation loop over the enumerated shapes:
the first failure aborts the loop. -/
def validateShapes (uuid : Nat → String) :
    Nat → List (List (String × PyVal)) → ValidateOutcome
  | _, [] => .ok []
  | i, fs :: rest =>
    match validateOne (uuid i) fs with
    | .missingType => .missingType i
    | .raised m => .raised m
    | .ok fs2 =>
      match validateShapes uuid (i + 1) rest with
      | .ok l => .ok (fs2 :: l)
      | r => r

/-- A shape record whose `fill` field, when present, is a string (so that
normalizing it cannot raise). -/
def fillOk (fs : List (String × PyVal)) : Bool :=
  match fs.lookup "fill" with
  | some (.str _) => true
  | some _ => false
  | Option.none => true

/-- `create_shapes_batch` (tools.py lines 1164-1213): validate every shape
(all-or-nothing: the first shape missing `type` fails the whole call before
any store traffic); only a fully validated batch reaches the store.  The
second component is the batch-create store call, `none` when never issued. -/
def create_shapes_batch (uuid : Nat → String) (store : Except String Bool)
    (shapes : List (List (String × PyVal))) :
    PyVal × Option (List (List (String × PyVal))) :=
  match validateShapes uuid 0 shapes with
  | .missingType i =>
    (.dict [("success", .bool false),
            ("message", .str ("Shape " ++ toString i ++
              " is missing required field " ++ sq ++ "type" ++ sq))],
     Option.none)
  | .raised msg =>
    (.dict [("success", .bool false),
            ("message", .str ("Error creating shapes batch: " ++ msg))],
     Option.none)
  | .ok vshapes =>
    match store with
    | .ok true =>
      (.dict [("success", .bool true),
              ("message", .str ("Created " ++ toString vshapes.length ++
                " shapes in batch")),
              ("shape_count", .int vshapes.length)], some vshapes)
    | .ok false =>
      (.dict [("success", .bool false),
              ("message", .str "Failed to create shapes batch")], some vshapes)
    | .error e =>
      (.dict [("success", .bool false),
              ("message", .str ("Error creating shapes batch: " ++ e))],
       some vshapes)

/-- A stored shape as read back by the arrange tools; fields are optional
because the Python code reads them with `.get` and a default. -/
structure StoredShape where
  id : String
  x : Option ℚ
  y : Option ℚ
  width : Option ℚ
deriving DecidableEq

/-- `shape.get('x', 0)`. -/
def getX (s : StoredShape) : ℚ := s.x.getD 0

/-- `shape.get('y', 0)`. -/
def getY (s : StoredShape) : ℚ := s.y.getD 0

/-- `shape.get('width', 50)`. -/
def getW (s : StoredShape) : ℚ := s.width.getD 50

/-- The sort key of `arrange_shapes_horizontal`: current x position. -/
def shapeLe (a b : StoredShape) : Prop := getX a ≤ getX b

instance : DecidableRel shapeLe :=
  fun a b => inferInstanceAs (Decidable (getX a ≤ getX b))

/-- One entry of the batch-update payload sent to the store. -/
structure ShapeUpdate where
  shape_id : String
  x : ℚ
  y : ℚ
deriving DecidableEq

/-- The position-recomputation loop of `arrange_shapes_horizontal` (tools.py
lines 479-490): a running x offset starting at 100, advanced by each shape's
width plus the spacing. -/
def arrangeGo (spacing yPos : ℚ) : ℚ → List StoredShape → List ShapeUpdate
  | _, [] => []
  | cur, s :: rest =>
    ⟨s.id, cur, yPos⟩ :: arrangeGo spacing yPos (cur + getW s + spacing) rest

/-- Result of `arrange_shapes_horizontal`: the tool result plus the single
batch-update store call (`none` when never issued). -/
structure ArrangeResult where
  success : Bool
  message : String
  storeCall : Option (List ShapeUpdate)
  returnedShapes : List StoredShape

/-- `arrange_shapes_horizontal` (tools.py lines 431-521): read all shapes,
sort by current x (Python `sorted` is stable; insertion sort is the stable
sort of the same relation), recompute positions with the running offset, and
write them in one batch update. -/
def arrange_shapes_horizontal (shapes : List StoredShape) (spacing : ℚ)
    (y_position : Option ℚ) (storeOk : Bool) : ArrangeResult :=
  if shapes.length = 0 then
    { success := false, message := "No shapes on canvas to arrange"
      storeCall := Option.none, returnedShapes := [] }
  else
    let yPos :=
      match y_position with
      | some yp => yp
      | Option.none => (shapes.map getY).sum / (shapes.length : ℚ)
    let sorted := List.insertionSort shapeLe shapes
    let updates := arrangeGo spacing yPos 100 sorted
    if storeOk then
      { success := true
        message := "Arranged " ++ toString shapes.length ++ " shapes in horizontal row"
        storeCall := some updates
        returnedShapes :=
          List.zipWith (fun s u => { s with x := some u.x, y := some u.y })
            sorted updates }
    else
      { success := false, message := "Failed to arrange shapes"
        storeCall := some updates, returnedShapes := [] }

@[simp] theorem except_bind_ok {α β ε : Type} (a : α) (f : α → Except ε β) :
    (Except.ok a >>= f) = f a := rfl

@[simp] theorem except_bind_error {α β ε : Type} (e : ε) (f : α → Except ε β) :
    ((Except.error e : Except ε α) >>= f) = Except.error e := rfl

@[simp] theorem except_pure {α ε : Type} (a : α) :
    (pure a : Except ε α) = Except.ok a := rfl

/-- Claim C1: whenever any step of command execution raises an exception —
agent initialization, memory lookup, reasoning-engine invocation, or
normalization — `execute_canvas_command` returns the uniform failure envelope
`{success: false, message: "Failed to execute command", shapes: [], error: e}`
and (being a total function) never propagates the exception. -/
theorem C1_failure_envelope (env : ExecEnv) (e : String) (h : stepRaises env e) :
    execute_canvas_command env =
      { success := false
        message := .str "Failed to execute command"
        shapes := []
        error := some e } := by
  rcases h with ⟨hg, hi⟩ | ⟨hi, hm⟩ | ⟨hi, hm, hv⟩ | ⟨hi, hm, r, hv, hx⟩
  · simp [execute_canvas_command, runSteps, hg, hi]
  · by_cases hg : (env.filesChanged || !env.agentPresent) = true
    · simp [execute_canvas_command, runSteps, hg, hi hg, hm]
    · simp [execute_canvas_command, runSteps,
        Bool.not_eq_true _ ▸ hg, hm]
  · by_cases hg : (env.filesChanged || !env.agentPresent) = true
    · simp [execute_canvas_command, runSteps, hg, hi hg, hm, hv]
    · simp [execute_canvas_command, runSteps, Bool.not_eq_true _ ▸ hg, hm, hv]
  · by_cases hg : (env.filesChanged || !env.agentPresent) = true
    · simp [execute_canvas_command, runSteps, hg, hi hg, hm, hv, hx]
    · simp [execute_canvas_command, runSteps, Bool.not_eq_true _ ▸ hg, hm, hv, hx]

/-- Witness for C1: a reasoning-engine invocation that raises. -/
theorem C1_failure_envelope_witness :
    execute_canvas_command
      { command := "draw a circle", canvas_id := "main-canvas"
        user_id := Option.none, session_id := "s1"
        filesChanged := false, agentPresent := true
        initOutcome := Except.ok (), memoryOutcome := Except.ok ()
        invokeOutcome := .exc "RateLimitError", uuid := fun _ => "u" } =
      { success := false
        message := .str "Failed to execute command"
        shapes := []
        error := some "RateLimitError" } :=
  C1_failure_envelope _ _ (Or.inr (Or.inr (Or.inl ⟨fun h => by simp at h, rfl, rfl⟩)))

/-- Claim C2: a command whose reasoning-engine invocation blocks past the
20-second wall-clock budget returns, without raising, a result with
`success = false`, `error = "Timeout after 20 seconds"` and an empty shapes
list. -/
theorem C2_timeout_structured_failure (env : ExecEnv)
    (hi : initStepOk env)
    (hm : env.memoryOutcome = Except.ok ())
    (ht : env.invokeOutcome = .timeout) :
    (execute_canvas_command env).success = false
    ∧ (execute_canvas_command env).error = some "Timeout after 20 seconds"
    ∧ (execute_canvas_command env).shapes = [] := by
  by_cases hg : (env.filesChanged || !env.agentPresent) = true
  · simp [execute_canvas_command, runSteps, hg, hi hg, hm, ht, timeoutResult]
  · simp [execute_canvas_command, runSteps, Bool.not_eq_true _ ▸ hg, hm, ht,
      timeoutResult]

/-- Witness for C2: a concrete invocation that times out. -/
theorem C2_timeout_structured_failure_witness :
    (execute_canvas_command
      { command := "draw 500 circles", canvas_id := "main-canvas"
        user_id := Option.none, session_id := "s1"
        filesChanged := false, agentPresent := true
        initOutcome := Except.ok (), memoryOutcome := Except.ok ()
        invokeOutcome := .timeout, uuid := fun _ => "u" }).success = false
    ∧ (execute_canvas_command
      { command := "draw 500 circles", canvas_id := "main-canvas"
        user_id := Option.none, session_id := "s1"
        filesChanged := false, agentPresent := true
        initOutcome := Except.ok (), memoryOutcome := Except.ok ()
        invokeOutcome := .timeout, uuid := fun _ => "u" }).error
        = some "Timeout after 20 seconds"
    ∧ (execute_canvas_command
      { command := "draw 500 circles", canvas_id := "main-canvas"
        user_id := Option.none, session_id := "s1"
        filesChanged := false, agentPresent := true
        initOutcome := Except.ok (), memoryOutcome := Except.ok ()
        invokeOutcome := .timeout, uuid := fun _ => "u" }).shapes = [] :=
  C2_timeout_structured_failure _ (fun h => by simp at h) rfl rfl

/-- Claim C5: for every agent result whose intermediate steps are, in order,
(a) a tool output that is a dict with a `shapes` list of 3 dicts each carrying
`type`, (b) a tool output that is a dict with `type = "circle"`, and (c) a tool
output that is a list of 2 dicts each carrying `type`, and whose final output
is a dict without a `type` field, `extract_shapes_from_result` returns exactly
the 6 flat shape records in that relative order, and the final-answer dict
contributes zero entries. -/
theorem C5_normalization_flattens
    (act₁ act₂ act₃ : PyVal)
    (fsa fsb fso : List (String × PyVal))
    (d₁ d₂ d₃ e₁ e₂ : PyVal)
    (ha : fsa.lookup "shapes" = some (.list [d₁, d₂, d₃]))
    (hd₁ : isShapeDict d₁ = true)
    (hd₂ : isShapeDict d₂ = true)
    (hd₃ : isShapeDict d₃ = true)
    (hb1 : fsb.lookup "shapes" = Option.none)
    (hb2 : fsb.lookup "type" = some (.str "circle"))
    (he₁ : isShapeDict e₁ = true)
    (he₂ : isShapeDict e₂ = true)
    (ho : fso.lookup "type" = Option.none) :
    extract_shapes_from_result
      [("output", .dict fso),
       ("intermediate_steps",
        .list [.list [act₁, .dict fsa],
               .list [act₂, .dict fsb],
               .list [act₃, .list [e₁, e₂]]])]
      = .ok [d₁, d₂, d₃, .dict fsb, e₁, e₂] := by
  simp [extract_shapes_from_result, List.lookup, extractFromOutput, ho,
    pyToList, extractSteps, processStep, pyLen, pyIndex,
    extractFromToolOutput, ha, hb1, hb2, List.filter, hd₁, hd₂, hd₃, he₁, he₂]

/-- Witness for C5 at a concrete agent result. -/
theorem C5_normalization_flattens_witness :
    extract_shapes_from_result
      [("output", .dict [("success", .bool true)]),
       ("intermediate_steps",
        .list [.list [.str "a1",
                      .dict [("shapes", .list [.dict [("type", .str "rectangle")],
                                               .dict [("type", .str "rectangle")],
                                               .dict [("type", .str "text")]])]],
               .list [.str "a2", .dict [("type", .str "circle")]],
               .list [.str "a3", .list [.dict [("type", .str "circle")],
                                        .dict [("type", .str "rectangle")]]]])]
      = .ok [.dict [("type", .str "rectangle")],
             .dict [("type", .str "rectangle")],
             .dict [("type", .str "text")],
             .dict [("type", .str "circle")],
             .dict [("type", .str "circle")],
             .dict [("type", .str "rectangle")]] :=
  C5_normalization_flattens (.str "a1") (.str "a2") (.str "a3")
    _ _ _ _ _ _ _ _ rfl rfl rfl rfl rfl rfl rfl rfl rfl

/-- Counterexample to C3: when the tracked files have changed and recreation
fails (the model credential is absent), `check_agent_health` propagates the
exception instead of returning a boolean. -/
theorem C3_health_check_counterexample :
    check_agent_health
      { filesChanged := true, agentPresent := true, agentValid := true
        initOutcome := Except.error "OPENAI_API_KEY not found in environment variables" }
      = Except.error "OPENAI_API_KEY not found in environment variables" := rfl

/-- Claim C3 (amended): `check_agent_health` returns a boolean in every state
in which any recreation it triggers succeeds — in particular it reports
`false` for the cycle in which the agent was missing or invalid, and a
healthy state returns a boolean no matter how `initialize_agent` would have
behaved; but when a triggered recreation fails, the exception raised by
`initialize_agent` propagates to the caller, and that is the only way
`check_agent_health` throws. -/
theorem C3_health_check_amended (env : HealthEnv) :
    ((recreationTriggered env → env.initOutcome = Except.ok ()) →
        (check_agent_health env).isOk = true)
    ∧ (env.filesChanged = false →
        (env.agentPresent = false ∨ env.agentValid = false) →
        env.initOutcome = Except.ok () →
        check_agent_health env = Except.ok false)
    ∧ (∀ e, recreationTriggered env → env.initOutcome = Except.error e →
        check_agent_health env = Except.error e)
    ∧ (∀ e, check_agent_health env = Except.error e →
        recreationTriggered env ∧ env.initOutcome = Except.error e) := by
  rcases env with ⟨fc, ap, av, io⟩
  cases io with
  | error m =>
    cases fc <;> cases ap <;> cases av <;>
      simp [check_agent_health, recreationTriggered, Except.isOk, Except.toBool]
  | ok u =>
    cases fc <;> cases ap <;> cases av <;>
      simp [check_agent_health, recreationTriggered, Except.isOk, Except.toBool]

/-- Witness for C3 (amended): a missing agent with a succeeding recreation
reports `false` for that cycle, and a file change with a failing recreation
propagates the credential error. -/
theorem C3_health_check_amended_witness :
    check_agent_health
      { filesChanged := false, agentPresent := false, agentValid := true
        initOutcome := Except.ok () } = Except.ok false
    ∧ check_agent_health
      { filesChanged := true, agentPresent := true, agentValid := true
        initOutcome := Except.error "no api key" }
      = Except.error "no api key" :=
  ⟨(C3_health_check_amended _).2.1 rfl (Or.inl rfl) rfl,
   (C3_health_check_amended _).2.2.1 "no api key" (Or.inl rfl) rfl⟩

/-- Claim C4: starting from a recorded mtime baseline with a live agent, if
exactly one tracked file's mtime changed, the next `execute_canvas_command`
increments the creation counter exactly once before the invocation proceeds,
and updates the stored mtimes so that an immediately following call with
unchanged files leaves the state (and the counter) untouched. -/
theorem C4_hot_reload_recreates_once (st : AgentState) (t0 p0 curT curP : ℚ)
    (ht : st.toolsMtime = some t0)
    (hp : st.promptsMtime = some p0)
    (_hagent : st.agentPresent = true)
    (hone : (curT ≠ t0 ∧ curP = p0) ∨ (curT = t0 ∧ curP ≠ p0)) :
    (execute_preamble st curT curP true).1.creationCount = st.creationCount + 1
    ∧ (execute_preamble st curT curP true).2 = true
    ∧ (execute_preamble st curT curP true).1.toolsMtime = some curT
    ∧ (execute_preamble st curT curP true).1.promptsMtime = some curP
    ∧ execute_preamble (execute_preamble st curT curP true).1 curT curP true
        = ((execute_preamble st curT curP true).1, true) := by
  have hc : (¬curT = t0 ∨ ¬p0 = curP) := by
    rcases hone with ⟨h, _⟩ | ⟨_, h⟩
    · exact Or.inl h
    · exact Or.inr (fun hh => h hh.symm)
  have h1 : check_files_changed st curT curP =
      (true, { st with toolsMtime := some curT, promptsMtime := some curP }) := by
    simp [check_files_changed, ht, hp, hc]
  have h2 : initialize_agent
      { st with toolsMtime := some curT, promptsMtime := some curP } curT curP true
      = ({ toolsMtime := some curT, promptsMtime := some curP
           creationCount := st.creationCount + 1, agentPresent := true }, true) := by
    simp [initialize_agent, check_files_changed]
  have h3 : execute_preamble st curT curP true
      = ({ toolsMtime := some curT, promptsMtime := some curP
           creationCount := st.creationCount + 1, agentPresent := true }, true) := by
    simp [execute_preamble, h1, h2]
  have h4 : execute_preamble
      { toolsMtime := some curT, promptsMtime := some curP
        creationCount := st.creationCount + 1, agentPresent := true } curT curP true
      = ({ toolsMtime := some curT, promptsMtime := some curP
           creationCount := st.creationCount + 1, agentPresent := true }, true) := by
    simp [execute_preamble, check_files_changed]
  refine ⟨by rw [h3], by rw [h3], by rw [h3], by rw [h3], ?_⟩
  rw [h3]
  exact h4

/-- Witness for C4: a concrete touched tools.py mtime. -/
theorem C4_hot_reload_recreates_once_witness :
    (execute_preamble
        { toolsMtime := some 1000, promptsMtime := some 2000
          creationCount := 3, agentPresent := true } 1500 2000 true).1.creationCount
      = 4
    ∧ (execute_preamble
        { toolsMtime := some 1000, promptsMtime := some 2000
          creationCount := 3, agentPresent := true } 1500 2000 true).2 = true :=
  ⟨(C4_hot_reload_recreates_once _ 1000 2000 1500 2000 rfl rfl rfl
      (Or.inl ⟨by norm_num, rfl⟩)).1,
   (C4_hot_reload_recreates_once _ 1000 2000 1500 2000 rfl rfl rfl
      (Or.inl ⟨by norm_num, rfl⟩)).2.1⟩

/-- Claim C6: after any `get_memory` call — for any session id — no session
whose last access lies more than 30 minutes (1800 seconds) before the current
time remains in the map; the sweep is global, so this holds for sessions other
than the one looked up. -/
theorem C6_expired_sessions_swept (ss : Sessions) (sid : String) (now : ℚ)
    (p : String × ℚ) (hp : p ∈ get_memory ss sid now) :
    ¬ (now - p.2 > SESSION_TIMEOUT) := by
  unfold get_memory at hp
  by_cases h : ((cleanup_expired_sessions ss now).lookup sid).isSome
  · simp only [h, if_true] at hp
    rcases List.mem_map.mp hp with ⟨q, hq, hqe⟩
    have hkeep : ¬ (now - q.2 > SESSION_TIMEOUT) := by
      have := List.of_mem_filter hq
      simpa using this
    by_cases hk : q.1 = sid
    · rw [if_pos hk] at hqe
      subst hqe
      simp [SESSION_TIMEOUT]
    · rw [if_neg hk] at hqe
      subst hqe
      exact hkeep
  · simp only [h, if_false] at hp
    rcases List.mem_append.mp hp with hq | hq
    · have := List.of_mem_filter hq
      simpa using this
    · have : p = (sid, now) := by simpa using hq
      subst this
      simp [SESSION_TIMEOUT]

/-- Witness for C6: a map with an expired session and a fresh one; the call
is for a third session id, the expired session is gone, and the surviving
entry is within the window. -/
theorem C6_expired_sessions_swept_witness :
    get_memory [("stale", 90000), ("fresh", 99000)] "other" 100000
      = [("fresh", 99000), ("other", 100000)]
    ∧ ¬ ((100000 : ℚ) - 99000 > SESSION_TIMEOUT) := by
  have hmap : get_memory [("stale", 90000), ("fresh", 99000)] "other" 100000
      = [("fresh", 99000), ("other", 100000)] := by
    norm_num [get_memory, cleanup_expired_sessions, SESSION_TIMEOUT,
      List.filter, List.lookup, show ("other" == "fresh") = false from rfl]
  refine ⟨hmap, ?_⟩
  exact C6_expired_sessions_swept [("stale", 90000), ("fresh", 99000)] "other"
    100000 ("fresh", 99000) (by rw [hmap]; exact List.mem_cons_self _ _)

theorem lookup_map_set (fs : List (String × PyVal)) (k k' : String) (v : PyVal)
    (h : k' ≠ k) :
    (fs.map (fun p => if p.1 = k then (k, v) else p)).lookup k' = fs.lookup k' := by
  induction fs with
  | nil => rfl
  | cons p rest ih =>
    rcases p with ⟨pk, pv⟩
    simp only [List.map_cons]
    by_cases hp : pk = k
    · have hb : (k' == k) = false := beq_eq_false_iff_ne.mpr h
      have hb' : (k' == pk) = false := beq_eq_false_iff_ne.mpr (by rw [hp]; exact h)
      rw [if_pos (show (pk, pv).1 = k from hp)]
      simp [List.lookup, hb, hb', ih]
    · rw [if_neg (show ¬ (pk, pv).1 = k from hp)]
      cases hkk : (k' == pk)
      · simp [List.lookup, hkk, ih]
      · simp [List.lookup, hkk]

theorem lookup_append_single (fs : List (String × PyVal)) (k k' : String)
    (v : PyVal) (h : k' ≠ k) :
    ((fs ++ [(k, v)]).lookup k') = fs.lookup k' := by
  induction fs with
  | nil =>
    have hb : (k' == k) = false := beq_eq_false_iff_ne.mpr h
    simp [List.lookup, hb]
  | cons p rest ih =>
    rcases p with ⟨pk, pv⟩
    cases hkk : (k' == pk) <;> simp [List.lookup, hkk, ih]

theorem lookup_dictSet_ne (fs : List (String × PyVal)) (k k' : String)
    (v : PyVal) (h : k' ≠ k) :
    (dictSet fs k v).lookup k' = fs.lookup k' := by
  unfold dictSet
  split
  · exact lookup_map_set fs k k' v h
  · exact lookup_append_single fs k k' v h

theorem lookup_withId_ne (genId : String) (fs : List (String × PyVal))
    (k' : String) (h : k' ≠ "id") :
    (withId genId fs).lookup k' = fs.lookup k' := by
  unfold withId
  split
  · rfl
  · exact lookup_dictSet_ne fs "id" k' _ h

theorem validateOne_ok_of (genId : String) (fs : List (String × PyVal))
    (htype : (fs.lookup "type").isSome = true) (hfill : fillOk fs = true) :
    ∃ fs2, validateOne genId fs = .ok fs2 := by
  have ht1 : ((withId genId fs).lookup "type").isSome = true := by
    rw [lookup_withId_ne genId fs "type" (by decide)]
    exact htype
  have hn : ((withId genId fs).lookup "type").isNone = false := by
    rcases hh : (withId genId fs).lookup "type" with _ | w
    · rw [hh] at ht1; simp at ht1
    · rfl
  have hf1 : fillOk (withId genId fs) = true := by
    unfold fillOk at hfill ⊢
    rw [lookup_withId_ne genId fs "fill" (by decide)]
    exact hfill
  unfold validateOne
  simp only [hn, Bool.false_eq_true, if_false]
  unfold fillOk at hf1
  rcases hh : (withId genId fs).lookup "fill" with _ | w
  · exact ⟨_, rfl⟩
  · rcases w with s | q | n | b | _ | xs | gs
    · exact ⟨_, rfl⟩
    all_goals rw [hh] at hf1
    all_goals simp at hf1

theorem validateOne_missingType (genId : String) (fs : List (String × PyVal))
    (htype : (fs.lookup "type").isNone = true) :
    validateOne genId fs = .missingType := by
  have ht1 : ((withId genId fs).lookup "type").isNone = true := by
    rw [lookup_withId_ne genId fs "type" (by decide)]
    exact htype
  unfold validateOne
  simp [ht1]

/-- Claim C7: a batch of 3 shape records whose second (index 1) record lacks a
`type` field — the others being well-formed shape records — makes
`create_shapes_batch` return a single validation failure whose message
references index 1, and the batch store write is never issued. -/
theorem C7_batch_all_or_nothing (uuid : Nat → String) (store : Except String Bool)
    (s0 s1 s2 : List (String × PyVal))
    (h0 : (s0.lookup "type").isSome = true)
    (h0f : fillOk s0 = true)
    (h1 : (s1.lookup "type").isNone = true) :
    create_shapes_batch uuid store [s0, s1, s2]
      = (.dict [("success", .bool false),
                ("message", .str ("Shape 1 is missing required field " ++
                  sq ++ "type" ++ sq))],
         Option.none) := by
  obtain ⟨t0, hok⟩ := validateOne_ok_of (uuid 0) s0 h0 h0f
  have hmiss : validateOne (uuid 1) s1 = .missingType :=
    validateOne_missingType (uuid 1) s1 h1
  simp [create_shapes_batch, validateShapes, hok, hmiss]
  rfl

/-- Witness for C7: three concrete records, the middle one lacking `type`. -/
theorem C7_batch_all_or_nothing_witness :
    create_shapes_batch (fun i => "uuid-" ++ toString i) (Except.ok true)
      [[("type", .str "rectangle"), ("x", .num 0), ("y", .num 0)],
       [("x", .num 10), ("y", .num 10)],
       [("type", .str "circle"), ("x", .num 20), ("y", .num 20)]]
      = (.dict [("success", .bool false),
                ("message", .str ("Shape 1 is missing required field " ++
                  sq ++ "type" ++ sq))],
         Option.none) :=
  C7_batch_all_or_nothing _ _ _ _ _ rfl rfl rfl

theorem sort3 (s₁ s₂ s₃ : StoredShape)
    (h12 : getX s₁ < getX s₂) (h23 : getX s₂ < getX s₃)
    (l : List StoredShape)
    (hl : l = [s₁, s₂, s₃] ∨ l = [s₁, s₃, s₂] ∨ l = [s₂, s₁, s₃]
        ∨ l = [s₂, s₃, s₁] ∨ l = [s₃, s₁, s₂] ∨ l = [s₃, s₂, s₁]) :
    List.insertionSort shapeLe l = [s₁, s₂, s₃] := by
  have le12 : shapeLe s₁ s₂ := le_of_lt h12
  have le23 : shapeLe s₂ s₃ := le_of_lt h23
  have le13 : shapeLe s₁ s₃ := le_of_lt (lt_trans h12 h23)
  have nle21 : ¬ shapeLe s₂ s₁ := not_le.mpr h12
  have nle31 : ¬ shapeLe s₃ s₁ := not_le.mpr (lt_trans h12 h23)
  have nle32 : ¬ shapeLe s₃ s₂ := not_le.mpr h23
  rcases hl with h | h | h | h | h | h <;> subst h <;>
    simp [List.insertionSort, List.orderedInsert,
      le12, le13, le23, nle21, nle31, nle32]

/-- Claim C8: a canvas holding exactly 3 rectangles at pairwise-distinct x
positions with widths 50, 80, 60 in ascending original-x order, arranged
horizontally with spacing 10, is written in one batch update assigning the
x-coordinates 100, 160 and 250 in that (sorted-by-original-x) order. -/
theorem C8_arrange_horizontal (s₁ s₂ s₃ : StoredShape) (l : List StoredShape)
    (hl : l = [s₁, s₂, s₃] ∨ l = [s₁, s₃, s₂] ∨ l = [s₂, s₁, s₃]
        ∨ l = [s₂, s₃, s₁] ∨ l = [s₃, s₁, s₂] ∨ l = [s₃, s₂, s₁])
    (h12 : getX s₁ < getX s₂) (h23 : getX s₂ < getX s₃)
    (w1 : getW s₁ = 50) (w2 : getW s₂ = 80) (_w3 : getW s₃ = 60)
    (ypos : Option ℚ) (storeOk : Bool) :
    ∃ yv, (arrange_shapes_horizontal l 10 ypos storeOk).storeCall
      = some [⟨s₁.id, 100, yv⟩, ⟨s₂.id, 160, yv⟩, ⟨s₃.id, 250, yv⟩] := by
  have hsort : List.insertionSort shapeLe l = [s₁, s₂, s₃] :=
    sort3 s₁ s₂ s₃ h12 h23 l hl
  have hlen : l.length = 3 := by
    rcases hl with h | h | h | h | h | h <;> subst h <;> rfl
  have harr : ∀ yv : ℚ, arrangeGo 10 yv 100 [s₁, s₂, s₃]
      = [⟨s₁.id, 100, yv⟩, ⟨s₂.id, 160, yv⟩, ⟨s₃.id, 250, yv⟩] := by
    intro yv
    simp [arrangeGo, w1, w2]
    norm_num
  rcases ypos with _ | yp
  · refine ⟨(l.map getY).sum / (l.length : ℚ), ?_⟩
    cases storeOk <;>
      simp [arrange_shapes_horizontal, hlen, hsort, harr]
  · refine ⟨yp, ?_⟩
    cases storeOk <;>
      simp [arrange_shapes_horizontal, hlen, hsort, harr]

/-- Witness for C8: three concrete rectangles given to the tool out of x
order. -/
theorem C8_arrange_horizontal_witness :
    ∃ yv, (arrange_shapes_horizontal
      [⟨"b", some 300, some 20, some 80⟩,
       ⟨"a", some 7, some 10, some 50⟩,
       ⟨"c", some 450, some 30, some 60⟩] 10 (some 5) true).storeCall
      = some [⟨"a", 100, yv⟩, ⟨"b", 160, yv⟩, ⟨"c", 250, yv⟩] :=
  C8_arrange_horizontal ⟨"a", some 7, some 10, some 50⟩
    ⟨"b", some 300, some 20, some 80⟩ ⟨"c", some 450, some 30, some 60⟩ _
    (Or.inr (Or.inr (Or.inl rfl)))
    (by norm_num [getX]) (by norm_num [getX])
    (by norm_num [getW]) (by norm_num [getW]) (by norm_num [getW])
    (some 5) true

/-- Counterexample to C9: `create_shape` stores its rotation argument
unchanged, so rotation 400 is stored as 400, outside [0, 360). -/
theorem C9_rotation_counterexample :
    (create_shape_record "rectangle" 100 100 100 100 "blue" 400 "s1").lookup "rotation"
      = some (.num 400)
    ∧ ¬ ((400 : ℚ) < 360) := by
  constructor
  · rfl
  · norm_num

/-- Claim C9 (amended): `rotate_shape` writes the angle reduced modulo 360,
which always lies in [0, 360); `create_shape` stores the rotation argument
unchanged, so its stored rotation lies in [0, 360) only when the argument
already does. -/
theorem C9_rotation_amended (sid : String) (angle : ℚ) (store : Except String Bool)
    (shape_type : String) (x y w h rot : ℚ) (color gid : String) :
    (rotate_shape sid angle store).2
        = some (sid, [("rotation", PyVal.num (pymod angle 360))])
    ∧ 0 ≤ pymod angle 360 ∧ pymod angle 360 < 360
    ∧ (create_shape_record shape_type x y w h color rot gid).lookup "rotation"
        = some (.num rot) := by
  have hfl : ((⌊angle / 360⌋ : ℤ) : ℚ) ≤ angle / 360 := Int.floor_le _
  have hfu : angle / 360 < (⌊angle / 360⌋ : ℤ) + 1 := Int.lt_floor_add_one _
  have e1 : (360 : ℚ) * (angle / 360) = angle := by field_simp
  have l1 : (360 : ℚ) * ((⌊angle / 360⌋ : ℤ) : ℚ) ≤ 360 * (angle / 360) :=
    mul_le_mul_of_nonneg_left hfl (by norm_num)
  have l2 : (360 : ℚ) * (angle / 360) < 360 * (((⌊angle / 360⌋ : ℤ) : ℚ) + 1) :=
    mul_lt_mul_of_pos_left hfu (by norm_num)
  refine ⟨?_, ?_, ?_, ?_⟩
  · cases store with
    | error e => rfl
    | ok b => cases b <;> rfl
  · unfold pymod
    linarith [l1, e1]
  · unfold pymod
    linarith [l2, e1]
  · rfl

/-- Claim C10: `create_shape` never rejects an unrecognized `shape_type`:
whenever the lower-cased `shape_type` is neither "rectangle" nor "circle",
the stored record has type "rectangle", the store write is issued, and (with
a successful store) the tool reports success instead of a validation
failure. -/
theorem C10_unknown_type_becomes_rectangle (shape_type : String)
    (h1 : pyLower shape_type ≠ "rectangle") (h2 : pyLower shape_type ≠ "circle")
    (x y w h : ℚ) (color : String) (rot : ℚ) (gid : String) :
    (create_shape_record shape_type x y w h color rot gid).lookup "type"
      = some (.str "rectangle")
    ∧ pyGet? (create_shape shape_type x y w h color rot gid (Except.ok true)).1
        "success" = some (.bool true)
    ∧ (create_shape shape_type x y w h color rot gid (Except.ok true)).2
      = some (create_shape_record shape_type x y w h color rot gid) := by
  refine ⟨?_, ?_, ?_⟩
  · simp [create_shape_record, List.lookup, h1, h2]
  · simp [create_shape, pyGet?, List.lookup]
  · simp [create_shape]

/-- Witness for C10: shape_type "triangle" silently becomes a rectangle. -/
theorem C10_unknown_type_becomes_rectangle_witness :
    (create_shape_record "triangle" 0 0 100 100 "blue" 0 "s1").lookup "type"
      = some (.str "rectangle")
    ∧ pyGet? (create_shape "triangle" 0 0 100 100 "blue" 0 "s1" (Except.ok true)).1
        "success" = some (.bool true)
    ∧ (create_shape "triangle" 0 0 100 100 "blue" 0 "s1" (Except.ok true)).2
      = some (create_shape_record "triangle" 0 0 100 100 "blue" 0 "s1") :=
  C10_unknown_type_becomes_rectangle "triangle" (by decide) (by decide)
    0 0 100 100 "blue" 0 "s1"

end CollabCanvas
